import Mathlib

set_option maxRecDepth 8000

/-!
Verification development for the BLKS Solana social-graph program
(`src/contracts/solana/src/{state,processor,instruction,error}.rs`).

Modelling conventions (shallow embedding):
* A `Pubkey` is its 32 raw bytes, modelled as `List Nat`.
* Rust `String` / `Vec<u8>` data is modelled as `List Nat` (the UTF-8 bytes);
  borsh's UTF-8 validity re-check on decode is not modelled, since every byte
  list we decode in the theorems below is the encoding of a string value.
* `u64` fields are modelled as `Nat`; well-formedness predicates carry the
  `< 2^64` range bounds where the byte-level codec depends on them.  Counter
  increments are modelled as unbounded `Nat` increments (the success path of
  checked arithmetic).
* `i64` is modelled as `Int` with explicit two's-complement conversion
  (`% 2^64`) in the codec.
* Fallible Rust functions returning `Result<_, ProgramError>` are modelled
  with `Except ProgramError _`.
* Handlers are modelled at the record level: the account records have already
  been decoded (the byte-level codec is modelled separately, mirroring
  `state.rs`), and an environment structure carries the account metadata
  (keys, owners, signer flags, clock) that `processor.rs` reads.
-/

namespace BLKS

/-- A Solana public key: 32 raw bytes. -/
abbrev Pubkey := List Nat

/-- The subset of `solana_program::program_error::ProgramError` values used by
`processor.rs` and `state.rs`. -/
inductive ProgramError where
  | InvalidArgument
  | InvalidAccountData
  | InvalidInstructionData
  | IncorrectProgramId
  | MissingRequiredSignature
  | Custom (code : Nat)
deriving DecidableEq, Repr

/-- Decidable equality of `Except` results, for concrete witness checking. -/
instance {ε α : Type} [DecidableEq ε] [DecidableEq α] : DecidableEq (Except ε α)
  | Except.ok a, Except.ok b =>
    if h : a = b then Decidable.isTrue (by rw [h])
    else Decidable.isFalse (by simp [h])
  | Except.ok _, Except.error _ => Decidable.isFalse (by simp)
  | Except.error _, Except.ok _ => Decidable.isFalse (by simp)
  | Except.error e, Except.error f =>
    if h : e = f then Decidable.isTrue (by rw [h])
    else Decidable.isFalse (by simp [h])

/-- `state.rs`: `enum PostRating` — rating based on like count. -/
inductive PostRating where
  | none
  | bronze
  | silver
  | gold
  | platinum
  | diamond
  | ace
  | conqueror
deriving DecidableEq, Repr

/-- `state.rs` `PostRating::from_likes`: the match on `likes` with guards
`>= 1_000_000, >= 1_000, >= 500, >= 150, >= 50, >= 20, >= 5`, highest first. -/
def PostRating.from_likes (likes : Nat) : PostRating :=
  if 1000000 ≤ likes then PostRating.conqueror
  else if 1000 ≤ likes then PostRating.ace
  else if 500 ≤ likes then PostRating.diamond
  else if 150 ≤ likes then PostRating.platinum
  else if 50 ≤ likes then PostRating.gold
  else if 20 ≤ likes then PostRating.silver
  else if 5 ≤ likes then PostRating.bronze
  else PostRating.none

/-- Position of a rating in the tier ladder (used to state monotonicity). -/
def PostRating.rank : PostRating → Nat
  | PostRating.none => 0
  | PostRating.bronze => 1
  | PostRating.silver => 2
  | PostRating.gold => 3
  | PostRating.platinum => 4
  | PostRating.diamond => 5
  | PostRating.ace => 6
  | PostRating.conqueror => 7

/-- `state.rs` `struct Profile` (field order matters for the borsh codec). -/
structure Profile where
  is_initialized : Bool
  owner : Pubkey
  username : List Nat
  bio : List Nat
  profile_image : List Nat
  cover_image : List Nat
  created_at : Nat
  followers_count : Nat
  following_count : Nat
  user_credit_rating : Int
  posts_count : Nat
  last_post_timestamp : Nat
  daily_post_count : Nat
  is_verified : Bool
deriving DecidableEq, Repr

/-- `state.rs` `struct Post` (field order matters for the borsh codec). -/
structure Post where
  is_initialized : Bool
  id : Nat
  author : Pubkey
  content : List Nat
  timestamp : Nat
  likes : Nat
  comments : Nat
  mirrors : Nat
  images : List (List Nat)
  rating : PostRating
  in_kill_zone : Bool
deriving DecidableEq, Repr

/-- `state.rs` `struct Community` (field order matters for the borsh codec). -/
structure Community where
  is_initialized : Bool
  id : Nat
  name : List Nat
  description : List Nat
  avatar : List Nat
  owner : Pubkey
  member_count : Nat
  rules : List (List Nat)
  is_sb_community : Bool
deriving DecidableEq, Repr

/-! ## Borsh codec

`state.rs` serializes with `BorshSerialize::try_to_vec` and deserializes with
`try_from_slice_unchecked` (which parses a prefix of the buffer and ignores
trailing bytes).  Borsh layout: `bool` is one byte (0/1, decode rejects other
values); `u64`/`i64` are 8 bytes little-endian (two's complement for `i64`);
`Pubkey` is 32 raw bytes; `String` is a `u32` little-endian byte length
followed by the bytes; `Vec<String>` is a `u32` element count followed by the
elements; a fieldless enum is its variant index as one byte. -/

/-- Little-endian byte encoding of `v` in `k` bytes. -/
def toLE : Nat → Nat → List Nat
  | 0, _ => []
  | k + 1, v => v % 256 :: toLE k (v / 256)

/-- Parse `k` little-endian bytes; `none` if fewer than `k` bytes remain. -/
def parseLE : Nat → List Nat → Option (Nat × List Nat)
  | 0, b => some (0, b)
  | _ + 1, [] => Option.none
  | k + 1, x :: b => (parseLE k b).map (fun p => (x + 256 * p.1, p.2))

/-- Borsh encoding of a `bool`: one byte, 1 for true, 0 for false. -/
def encodeBool (b : Bool) : List Nat := [if b then 1 else 0]

/-- Borsh decoding of a `bool`: rejects any byte other than 0 or 1. -/
def parseBool : List Nat → Option (Bool × List Nat)
  | 0 :: r => some (false, r)
  | 1 :: r => some (true, r)
  | _ => Option.none

/-- Borsh decoding of a `Pubkey`: the next 32 raw bytes. -/
def parsePubkey (b : List Nat) : Option (Pubkey × List Nat) :=
  if 32 ≤ b.length then some (b.take 32, b.drop 32) else Option.none

/-- Borsh encoding of a `String`: `u32` little-endian length, then the bytes. -/
def encodeStr (s : List Nat) : List Nat := toLE 4 s.length ++ s

/-- Borsh decoding of a `String` (UTF-8 re-validation not modelled). -/
def parseStr (b : List Nat) : Option (List Nat × List Nat) :=
  (parseLE 4 b).bind fun p =>
    if p.1 ≤ p.2.length then some (p.2.take p.1, p.2.drop p.1) else Option.none

/-- Borsh encoding of a `Vec<String>`: `u32` count, then the elements. -/
def encodeVecStr (xs : List (List Nat)) : List Nat :=
  toLE 4 xs.length ++ (xs.map encodeStr).flatten

/-- Parse exactly `n` borsh strings. -/
def parseStrs : Nat → List Nat → Option (List (List Nat) × List Nat)
  | 0, b => some ([], b)
  | n + 1, b =>
    (parseStr b).bind fun s =>
      (parseStrs n s.2).map fun t => (s.1 :: t.1, t.2)

/-- Borsh decoding of a `Vec<String>`. -/
def parseVecStr (b : List Nat) : Option (List (List Nat) × List Nat) :=
  (parseLE 4 b).bind fun p => parseStrs p.1 p.2

/-- Borsh encoding of an `i64`: 8 bytes little-endian, two's complement. -/
def encodeI64 (v : Int) : List Nat := toLE 8 (v.emod (2 ^ 64)).toNat

/-- Interpret an unsigned 64-bit value as a two's-complement `i64`. -/
def decodeI64n (n : Nat) : Int :=
  if n < 2 ^ 63 then (n : Int) else (n : Int) - 2 ^ 64

/-- Borsh decoding of an `i64`. -/
def parseI64 (b : List Nat) : Option (Int × List Nat) :=
  (parseLE 8 b).map (fun p => (decodeI64n p.1, p.2))

/-- Borsh variant index of a `PostRating`. -/
def PostRating.tag : PostRating → Nat
  | PostRating.none => 0
  | PostRating.bronze => 1
  | PostRating.silver => 2
  | PostRating.gold => 3
  | PostRating.platinum => 4
  | PostRating.diamond => 5
  | PostRating.ace => 6
  | PostRating.conqueror => 7

/-- Borsh encoding of a `PostRating`: its variant index as one byte. -/
def encodeRating (t : PostRating) : List Nat := [t.tag]

/-- Borsh decoding of a `PostRating`: rejects tags outside 0..7. -/
def parseRating : List Nat → Option (PostRating × List Nat)
  | 0 :: r => some (PostRating.none, r)
  | 1 :: r => some (PostRating.bronze, r)
  | 2 :: r => some (PostRating.silver, r)
  | 3 :: r => some (PostRating.gold, r)
  | 4 :: r => some (PostRating.platinum, r)
  | 5 :: r => some (PostRating.diamond, r)
  | 6 :: r => some (PostRating.ace, r)
  | 7 :: r => some (PostRating.conqueror, r)
  | _ => Option.none

/-- Borsh serialization of a `Profile` (`Profile::try_to_vec`). -/
def encodeProfile (p : Profile) : List Nat :=
  encodeBool p.is_initialized ++ p.owner ++ encodeStr p.username ++
  encodeStr p.bio ++ encodeStr p.profile_image ++ encodeStr p.cover_image ++
  toLE 8 p.created_at ++ toLE 8 p.followers_count ++ toLE 8 p.following_count ++
  encodeI64 p.user_credit_rating ++ toLE 8 p.posts_count ++
  toLE 8 p.last_post_timestamp ++ toLE 8 p.daily_post_count ++
  encodeBool p.is_verified

/-- Borsh deserialization of a `Profile` prefix of the buffer. -/
def parseProfile (b : List Nat) : Option (Profile × List Nat) :=
  (parseBool b).bind fun s1 =>
  (parsePubkey s1.2).bind fun s2 =>
  (parseStr s2.2).bind fun s3 =>
  (parseStr s3.2).bind fun s4 =>
  (parseStr s4.2).bind fun s5 =>
  (parseStr s5.2).bind fun s6 =>
  (parseLE 8 s6.2).bind fun s7 =>
  (parseLE 8 s7.2).bind fun s8 =>
  (parseLE 8 s8.2).bind fun s9 =>
  (parseI64 s9.2).bind fun s10 =>
  (parseLE 8 s10.2).bind fun s11 =>
  (parseLE 8 s11.2).bind fun s12 =>
  (parseLE 8 s12.2).bind fun s13 =>
  (parseBool s13.2).map fun s14 =>
  (⟨s1.1, s2.1, s3.1, s4.1, s5.1, s6.1, s7.1, s8.1, s9.1, s10.1,
    s11.1, s12.1, s13.1, s14.1⟩, s14.2)

/-- Borsh serialization of a `Post` (`Post::try_to_vec`). -/
def encodePost (p : Post) : List Nat :=
  encodeBool p.is_initialized ++ toLE 8 p.id ++ p.author ++
  encodeStr p.content ++ toLE 8 p.timestamp ++ toLE 8 p.likes ++
  toLE 8 p.comments ++ toLE 8 p.mirrors ++ encodeVecStr p.images ++
  encodeRating p.rating ++ encodeBool p.in_kill_zone

/-- Borsh deserialization of a `Post` prefix of the buffer. -/
def parsePost (b : List Nat) : Option (Post × List Nat) :=
  (parseBool b).bind fun s1 =>
  (parseLE 8 s1.2).bind fun s2 =>
  (parsePubkey s2.2).bind fun s3 =>
  (parseStr s3.2).bind fun s4 =>
  (parseLE 8 s4.2).bind fun s5 =>
  (parseLE 8 s5.2).bind fun s6 =>
  (parseLE 8 s6.2).bind fun s7 =>
  (parseLE 8 s7.2).bind fun s8 =>
  (parseVecStr s8.2).bind fun s9 =>
  (parseRating s9.2).bind fun s10 =>
  (parseBool s10.2).map fun s11 =>
  (⟨s1.1, s2.1, s3.1, s4.1, s5.1, s6.1, s7.1, s8.1, s9.1, s10.1, s11.1⟩, s11.2)

/-- Borsh serialization of a `Community` (`Community::try_to_vec`). -/
def encodeCommunity (c : Community) : List Nat :=
  encodeBool c.is_initialized ++ toLE 8 c.id ++ encodeStr c.name ++
  encodeStr c.description ++ encodeStr c.avatar ++ c.owner ++
  toLE 8 c.member_count ++ encodeVecStr c.rules ++
  encodeBool c.is_sb_community

/-- Borsh deserialization of a `Community` prefix of the buffer. -/
def parseCommunity (b : List Nat) : Option (Community × List Nat) :=
  (parseBool b).bind fun s1 =>
  (parseLE 8 s1.2).bind fun s2 =>
  (parseStr s2.2).bind fun s3 =>
  (parseStr s3.2).bind fun s4 =>
  (parseStr s4.2).bind fun s5 =>
  (parsePubkey s5.2).bind fun s6 =>
  (parseLE 8 s6.2).bind fun s7 =>
  (parseVecStr s7.2).bind fun s8 =>
  (parseBool s8.2).map fun s9 =>
  (⟨s1.1, s2.1, s3.1, s4.1, s5.1, s6.1, s7.1, s8.1, s9.1⟩, s9.2)

/-- `state.rs` `pack_profile_into_slice`: serialize, fail with
`InvalidAccountData` if too long for the destination (checked before any byte
is written), else overwrite the destination's prefix. -/
def pack_profile_into_slice (p : Profile) (dst : List Nat) :
    Except ProgramError (List Nat) :=
  let data := encodeProfile p
  if data.length > dst.length then Except.error ProgramError.InvalidAccountData
  else Except.ok (data ++ dst.drop data.length)

/-- `state.rs` `unpack_profile_from_slice` (`try_from_slice_unchecked`:
trailing bytes are ignored). -/
def unpack_profile_from_slice (src : List Nat) : Except ProgramError Profile :=
  match parseProfile src with
  | some p => Except.ok p.1
  | Option.none => Except.error ProgramError.InvalidAccountData

/-- `state.rs` `pack_post_into_slice`. -/
def pack_post_into_slice (p : Post) (dst : List Nat) :
    Except ProgramError (List Nat) :=
  let data := encodePost p
  if data.length > dst.length then Except.error ProgramError.InvalidAccountData
  else Except.ok (data ++ dst.drop data.length)

/-- `state.rs` `unpack_post_from_slice`. -/
def unpack_post_from_slice (src : List Nat) : Except ProgramError Post :=
  match parsePost src with
  | some p => Except.ok p.1
  | Option.none => Except.error ProgramError.InvalidAccountData

/-- `state.rs` `pack_community_into_slice`. -/
def pack_community_into_slice (c : Community) (dst : List Nat) :
    Except ProgramError (List Nat) :=
  let data := encodeCommunity c
  if data.length > dst.length then Except.error ProgramError.InvalidAccountData
  else Except.ok (data ++ dst.drop data.length)

/-- `state.rs` `unpack_community_from_slice`. -/
def unpack_community_from_slice (src : List Nat) : Except ProgramError Community :=
  match parseCommunity src with
  | some p => Except.ok p.1
  | Option.none => Except.error ProgramError.InvalidAccountData

/-- Range bounds under which a byte list is the image of a Rust `String`
value serializable by borsh (length fits in `u32`). -/
abbrev StrWF (s : List Nat) : Prop := s.length < 2 ^ 32

/-- Range bounds for a `Vec<String>` value. -/
abbrev VecStrWF (xs : List (List Nat)) : Prop :=
  xs.length < 2 ^ 32 ∧ ∀ s ∈ xs, StrWF s

/-- A `Pubkey` value is exactly 32 bytes. -/
abbrev PkWF (k : Pubkey) : Prop := k.length = 32

/-- Range bound of a `u64` value. -/
abbrev U64WF (v : Nat) : Prop := v < 2 ^ 64

/-- Range bounds of an `i64` value. -/
abbrev I64WF (v : Int) : Prop := -(2 ^ 63) ≤ v ∧ v < 2 ^ 63

/-- Range bounds making a `Profile` model the image of a Rust `Profile`
value: key is 32 bytes, string lengths fit `u32`, `u64` fields in range,
`i64` field in range. -/
abbrev Profile.WF (p : Profile) : Prop :=
  PkWF p.owner ∧ StrWF p.username ∧ StrWF p.bio ∧
  StrWF p.profile_image ∧ StrWF p.cover_image ∧
  U64WF p.created_at ∧ U64WF p.followers_count ∧ U64WF p.following_count ∧
  I64WF p.user_credit_rating ∧ U64WF p.posts_count ∧
  U64WF p.last_post_timestamp ∧ U64WF p.daily_post_count

/-- Range bounds making a `Post` model the image of a Rust `Post` value. -/
abbrev Post.WF (p : Post) : Prop :=
  U64WF p.id ∧ PkWF p.author ∧ StrWF p.content ∧ U64WF p.timestamp ∧
  U64WF p.likes ∧ U64WF p.comments ∧ U64WF p.mirrors ∧ VecStrWF p.images

/-- Range bounds making a `Community` model the image of a Rust `Community`
value. -/
abbrev Community.WF (c : Community) : Prop :=
  U64WF c.id ∧ StrWF c.name ∧ StrWF c.description ∧ StrWF c.avatar ∧
  PkWF c.owner ∧ U64WF c.member_count ∧ VecStrWF c.rules

/-! ## Command processor (`processor.rs`)

Each handler is modelled at the record level: the records held by the
referenced accounts are inputs, and an environment structure carries the
account metadata (`key`, `owner`, `is_signer`) and the clock value that the
handler reads.  Checks are performed in the source's order; an error result
models the Rust early `return Err(..)` (the all-or-nothing commit of §5 of
the spec means an error leaves every record unchanged).  The external
provisioning CPIs (transfer / allocate / assign, `create_account`) have no
record-level effect and are not modelled. -/

/-- `solana_program::system_program::id()`: the all-zero public key. -/
def systemProgramId : Pubkey := List.replicate 32 0

/-- Account metadata read by `process_create_profile`.  `find_pda` models
`Pubkey::find_program_address([user_key, "profile", username], program_id).0`
as an unspecified pure function of the signer key and the username. -/
structure CreateProfileEnv where
  program_id : Pubkey
  user_key : Pubkey
  user_is_signer : Bool
  profile_key : Pubkey
  profile_acc_owner : Pubkey
  system_program_key : Pubkey
  now : Nat
  find_pda : Pubkey → List Nat → Pubkey

/-- Truncation applied to each string field in `process_create_profile`:
`if s.len() > 128 { s[0..128].to_string() } else { s }`.  Modelled on the
byte list as `take 128`, the in-bounds result of the slice; the slice's
char-boundary panic is modelled separately (see `truncStep`). -/
def capField (s : List Nat) : List Nat :=
  if s.length > 128 then s.take 128 else s

/-- `processor.rs` `process_create_profile`, record level: signer check, then
system-program check, then PDA check, then (provisioning), then builds the
`Profile` with credit rating 100 and all counters zero. -/
def process_create_profile (env : CreateProfileEnv)
    (username bio profile_image cover_image : List Nat) :
    Except ProgramError Profile :=
  if !env.user_is_signer then Except.error ProgramError.MissingRequiredSignature
  else if env.system_program_key ≠ systemProgramId then
    Except.error ProgramError.InvalidAccountData
  else if env.find_pda env.user_key username ≠ env.profile_key then
    Except.error ProgramError.InvalidArgument
  else
    Except.ok
      { is_initialized := true
        owner := env.user_key
        username := capField username
        bio := capField bio
        profile_image := capField profile_image
        cover_image := capField cover_image
        created_at := env.now
        followers_count := 0
        following_count := 0
        user_credit_rating := 100
        posts_count := 0
        last_post_timestamp := 0
        daily_post_count := 0
        is_verified := false }

/-- Account metadata read by `process_create_post`. -/
structure CreatePostEnv where
  program_id : Pubkey
  user_key : Pubkey
  user_is_signer : Bool
  profile_acc_owner : Pubkey
  post_acc_owner : Pubkey
  now : Nat
deriving DecidableEq, Repr

/-- `processor.rs` `process_create_post`, record level.  The day-boundary
check is `current_timestamp - profile.last_post_timestamp > 86400` on `u64`
(the model's `Nat` subtraction agrees whenever the clock is not behind the
stored timestamp). -/
def process_create_post (env : CreatePostEnv) (content : List Nat)
    (images : List (List Nat)) (profile : Profile) :
    Except ProgramError (Profile × Post) :=
  if !env.user_is_signer then Except.error ProgramError.MissingRequiredSignature
  else if env.profile_acc_owner ≠ env.program_id then
    Except.error ProgramError.IncorrectProgramId
  else if profile.owner ≠ env.user_key then
    Except.error ProgramError.InvalidAccountData
  else
    let daily0 :=
      if env.now - profile.last_post_timestamp > 86400 then 0
      else profile.daily_post_count
    let posts := profile.posts_count + 1
    let profile1 : Profile :=
      { profile with
        posts_count := posts
        daily_post_count := daily0 + 1
        last_post_timestamp := env.now }
    let post : Post :=
      { is_initialized := true
        id := posts
        author := env.user_key
        content := content
        timestamp := env.now
        likes := 0
        comments := 0
        mirrors := 0
        images := images
        rating := PostRating.none
        in_kill_zone := false }
    Except.ok (profile1, post)

/-- Account metadata read by `process_like_post`. -/
structure LikeEnv where
  program_id : Pubkey
  user_key : Pubkey
  user_is_signer : Bool
  post_acc_owner : Pubkey
  author_profile_acc_owner : Pubkey
deriving DecidableEq, Repr

/-- `processor.rs` `process_like_post`, record level: signer and account-owner
checks, post-id linkage check, author linkage check, then `likes += 1`,
`rating = PostRating::from_likes(likes)`, `in_kill_zone = likes < 0` (on
unsigned `likes`), and author credit rating `+= 1`. -/
def process_like_post (env : LikeEnv) (post_id : Nat) (post : Post)
    (author_profile : Profile) : Except ProgramError (Post × Profile) :=
  if !env.user_is_signer then Except.error ProgramError.MissingRequiredSignature
  else if env.post_acc_owner ≠ env.program_id then
    Except.error ProgramError.IncorrectProgramId
  else if env.author_profile_acc_owner ≠ env.program_id then
    Except.error ProgramError.IncorrectProgramId
  else if post.id ≠ post_id then Except.error ProgramError.InvalidArgument
  else if author_profile.owner ≠ post.author then
    Except.error ProgramError.InvalidArgument
  else
    let likes := post.likes + 1
    Except.ok
      ({ post with
          likes := likes
          rating := PostRating.from_likes likes
          in_kill_zone := decide (likes < 0) },
       { author_profile with
          user_credit_rating := author_profile.user_credit_rating + 1 })

/-- `n` successive `LikePost` commands on the same post/profile pair. -/
def likeIter (env : LikeEnv) (post_id : Nat) :
    Nat → Post × Profile → Except ProgramError (Post × Profile)
  | 0, s => Except.ok s
  | n + 1, s =>
    (process_like_post env post_id s.1 s.2).bind fun s1 =>
      likeIter env post_id n s1

/-- Account metadata read by `process_follow` / `process_unfollow`. -/
structure FollowEnv where
  program_id : Pubkey
  follower_key : Pubkey
  follower_is_signer : Bool
  followed_profile_key : Pubkey
  followed_acc_owner : Pubkey
  follower_acc_owner : Pubkey
deriving DecidableEq, Repr

/-- `processor.rs` `process_follow`, record level: signer and account-owner
checks, followed-key linkage check, follower-ownership check, then both
counters incremented. -/
def process_follow (env : FollowEnv) (profile_id : Pubkey)
    (followed follower : Profile) : Except ProgramError (Profile × Profile) :=
  if !env.follower_is_signer then
    Except.error ProgramError.MissingRequiredSignature
  else if env.followed_acc_owner ≠ env.program_id then
    Except.error ProgramError.IncorrectProgramId
  else if env.follower_acc_owner ≠ env.program_id then
    Except.error ProgramError.IncorrectProgramId
  else if env.followed_profile_key ≠ profile_id then
    Except.error ProgramError.InvalidArgument
  else if follower.owner ≠ env.follower_key then
    Except.error ProgramError.InvalidArgument
  else
    Except.ok
      ({ followed with followers_count := followed.followers_count + 1 },
       { follower with following_count := follower.following_count + 1 })

/-- `processor.rs` `process_unfollow`, record level: the same checks as
`process_follow`, then each counter decremented only when positive
(`if count > 0 { count -= 1 }`). -/
def process_unfollow (env : FollowEnv) (profile_id : Pubkey)
    (followed follower : Profile) : Except ProgramError (Profile × Profile) :=
  if !env.follower_is_signer then
    Except.error ProgramError.MissingRequiredSignature
  else if env.followed_acc_owner ≠ env.program_id then
    Except.error ProgramError.IncorrectProgramId
  else if env.follower_acc_owner ≠ env.program_id then
    Except.error ProgramError.IncorrectProgramId
  else if env.followed_profile_key ≠ profile_id then
    Except.error ProgramError.InvalidArgument
  else if follower.owner ≠ env.follower_key then
    Except.error ProgramError.InvalidArgument
  else
    Except.ok
      ({ followed with
          followers_count :=
            if followed.followers_count > 0 then followed.followers_count - 1
            else followed.followers_count },
       { follower with
          following_count :=
            if follower.following_count > 0 then follower.following_count - 1
            else follower.following_count })

/-- Account metadata read by `process_join_community`. -/
structure JoinEnv where
  program_id : Pubkey
  user_key : Pubkey
  user_is_signer : Bool
  community_key : Pubkey
  community_acc_owner : Pubkey
deriving DecidableEq, Repr

/-- `processor.rs` `process_join_community`: signer and account-owner checks,
key/argument linkage check, then `member_count += 1`. -/
def process_join_community (env : JoinEnv) (community_id : Pubkey)
    (community : Community) : Except ProgramError Community :=
  if !env.user_is_signer then Except.error ProgramError.MissingRequiredSignature
  else if env.community_acc_owner ≠ env.program_id then
    Except.error ProgramError.IncorrectProgramId
  else if env.community_key ≠ community_id then
    Except.error ProgramError.InvalidArgument
  else
    Except.ok { community with member_count := community.member_count + 1 }

/-- `processor.rs` `Processor::process`, `JoinCommunity` arm: the decoded
instruction's `community_id: u64` is dropped; the arm starts a fresh account
iterator and passes the FIRST account's key as the `community_id` argument —
but `process_join_community` also re-iterates from the start and reads that
first account as the user's wallet, so the key passed as the id is the user's
wallet key, not the community account's key. -/
def join_community_dispatch (env : JoinEnv) (_instr_community_id : Nat)
    (community : Community) : Except ProgramError Community :=
  process_join_community env env.user_key community

/-! ## UTF-8 truncation model (claim C10)

`process_create_profile` truncates each over-long string field with the byte
slice `s[0..128]`, which panics when byte index 128 is not a UTF-8 character
boundary.  A string is modelled here as the list of the byte widths (1–4) of
its successive characters; `utf8Len` is its byte length, and `sliceBytes n`
models `s[0..n]` for `n ≤ utf8Len s`: `some` of the character prefix of byte
length exactly `n`, or `none` for the panic when `n` falls inside a
character. -/

/-- Byte length of a string given as its list of character byte widths. -/
def utf8Len (s : List Nat) : Nat := s.sum

/-- `s[0..n]` at character granularity: consume whole characters until their
widths sum to exactly `n`; `none` models the char-boundary panic. -/
def sliceBytes : Nat → List Nat → Option (List Nat)
  | 0, _ => some []
  | _ + 1, [] => Option.none
  | k + 1, c :: rest =>
    if c ≤ k + 1 then (sliceBytes (k + 1 - c) rest).map (fun t => c :: t)
    else Option.none

/-- The char-level view of the truncation step of `process_create_profile`:
`if s.len() > 128 { s[0..128] } else { s }`, with `none` for the panic. -/
def truncStep (s : List Nat) : Option (List Nat) :=
  if utf8Len s > 128 then sliceBytes 128 s else some s

/-! ## Concrete sample values (used by the witness theorems) -/

/-- A 32-byte key with every byte `b`. -/
def keyOf (b : Nat) : Pubkey := List.replicate 32 b

/-- A profile with empty string fields. -/
def profileEmpty : Profile :=
  { is_initialized := true, owner := keyOf 1, username := [], bio := []
    profile_image := [], cover_image := [], created_at := 1700000000
    followers_count := 0, following_count := 0, user_credit_rating := 100
    posts_count := 0, last_post_timestamp := 0, daily_post_count := 0
    is_verified := false }

/-- A profile with populated string fields near the 512-byte capacity. -/
def profileFull : Profile :=
  { is_initialized := true, owner := keyOf 1
    username := List.replicate 128 97, bio := List.replicate 128 98
    profile_image := List.replicate 100 99, cover_image := List.replicate 50 100
    created_at := 1700000000, followers_count := 3, following_count := 4
    user_credit_rating := -250, posts_count := 9, last_post_timestamp := 1699999999
    daily_post_count := 2, is_verified := true }

/-- A populated post sample. -/
def postSample : Post :=
  { is_initialized := true, id := 7, author := keyOf 1
    content := List.replicate 200 101, timestamp := 1700000000, likes := 41
    comments := 2, mirrors := 1, images := [List.replicate 64 102, []]
    rating := PostRating.silver, in_kill_zone := false }

/-- A populated community sample. -/
def communitySample : Community :=
  { is_initialized := true, id := 3, name := [115, 98, 47, 97]
    description := List.replicate 80 103, avatar := List.replicate 40 104
    owner := keyOf 2, member_count := 12
    rules := [List.replicate 30 105, List.replicate 10 106]
    is_sb_community := true }

/-- The record decoded from an all-zero profile buffer. -/
def zeroProfile : Profile :=
  { is_initialized := false, owner := keyOf 0, username := [], bio := []
    profile_image := [], cover_image := [], created_at := 0
    followers_count := 0, following_count := 0, user_credit_rating := 0
    posts_count := 0, last_post_timestamp := 0, daily_post_count := 0
    is_verified := false }

/-- The record decoded from an all-zero post buffer. -/
def zeroPost : Post :=
  { is_initialized := false, id := 0, author := keyOf 0, content := []
    timestamp := 0, likes := 0, comments := 0, mirrors := 0, images := []
    rating := PostRating.none, in_kill_zone := false }

/-- The record decoded from an all-zero community buffer. -/
def zeroCommunity : Community :=
  { is_initialized := false, id := 0, name := [], description := []
    avatar := [], owner := keyOf 0, member_count := 0, rules := []
    is_sb_community := false }

/-- A follow/unfollow environment whose checks all pass. -/
def followEnvW : FollowEnv :=
  { program_id := keyOf 9, follower_key := keyOf 1, follower_is_signer := true
    followed_profile_key := keyOf 5, followed_acc_owner := keyOf 9
    follower_acc_owner := keyOf 9 }

/-- The followed profile for the C4 witness. -/
def followedW : Profile := { profileEmpty with owner := keyOf 2, followers_count := 6 }

/-- The follower profile for the C4 witness. -/
def followerW : Profile := { profileEmpty with owner := keyOf 1, following_count := 3 }

/-- A like environment whose checks all pass. -/
def likeEnvW : LikeEnv :=
  { program_id := keyOf 9, user_key := keyOf 3, user_is_signer := true
    post_acc_owner := keyOf 9, author_profile_acc_owner := keyOf 9 }

/-- The liked post for the C5 witness: fresh, zero likes. -/
def postW : Post :=
  { is_initialized := true, id := 7, author := keyOf 1, content := [104, 105]
    timestamp := 1700000000, likes := 0, comments := 0, mirrors := 0
    images := [], rating := PostRating.none, in_kill_zone := false }

/-- The post author's profile for the C5 witness. -/
def authorW : Profile := { profileEmpty with owner := keyOf 1 }

/-- A create-post environment whose checks pass (first post, day one). -/
def createPostEnv1 : CreatePostEnv :=
  { program_id := keyOf 9, user_key := keyOf 1, user_is_signer := true
    profile_acc_owner := keyOf 9, post_acc_owner := keyOf 9
    now := 1700000000 }

/-- The same create-post environment one hour later (same day). -/
def createPostEnv2 : CreatePostEnv := { createPostEnv1 with now := 1700003600 }

/-- A create-profile environment whose checks pass, over a concrete PDA
derivation function. -/
def createProfileEnvW : CreateProfileEnv :=
  { program_id := keyOf 9, user_key := keyOf 1, user_is_signer := true
    profile_key := keyOf 7, profile_acc_owner := keyOf 9
    system_program_key := systemProgramId, now := 1700000000
    find_pda := fun _ _ => keyOf 7 }

/-- A join-community environment for an ordinary invocation: the caller's
wallet and the community account are distinct accounts. -/
def joinEnvC : JoinEnv :=
  { program_id := keyOf 9, user_key := keyOf 1, user_is_signer := true
    community_key := keyOf 4, community_acc_owner := keyOf 9 }

/-- A degenerate join-community environment in which the same program-owned
signing account is supplied as both the wallet and the community account, so
the dispatch's key comparison succeeds. -/
def joinEnvAlias : JoinEnv :=
  { program_id := keyOf 9, user_key := keyOf 4, user_is_signer := true
    community_key := keyOf 4, community_acc_owner := keyOf 9 }

/-- The community record for the C9 counterexample: its stored `id` is 0. -/
def commC : Community :=
  { is_initialized := true, id := 0, name := [97], description := []
    avatar := [], owner := keyOf 2, member_count := 5, rules := []
    is_sb_community := false }

/-- The profile pair produced by the C4 witness follow. -/
def followResW : Profile × Profile :=
  ({ followedW with followers_count := 7 },
   { followerW with following_count := 4 })

/-- A followed profile with zero followers (C4 saturation witness). -/
def followedZ : Profile := { followedW with followers_count := 0 }

/-- A follower profile with zero following (C4 saturation witness). -/
def followerZ : Profile := { followerW with following_count := 0 }

/-- The post/profile pair produced by the C5 witness like. -/
def likeResW : Post × Profile :=
  ({ postW with likes := 1, rating := PostRating.none, in_kill_zone := false },
   { authorW with user_credit_rating := 101 })

/-- An author profile whose owner does not match `postW.author` (C5). -/
def wrongAuthorW : Profile := { authorW with owner := keyOf 3 }

/-- The profile/post pair produced by the C6 witness first post. -/
def createRes1 : Profile × Post :=
  ({ profileEmpty with
      posts_count := 1,
      daily_post_count := 1,
      last_post_timestamp := 1700000000 },
   { is_initialized := true, id := 1, author := keyOf 1, content := [104],
     timestamp := 1700000000, likes := 0, comments := 0, mirrors := 0,
     images := [], rating := PostRating.none, in_kill_zone := false })

/-- The profile produced by the C7 witness create. -/
def profResW : Profile :=
  { is_initialized := true, owner := keyOf 1, username := [97], bio := [98]
    profile_image := [], cover_image := [], created_at := 1700000000
    followers_count := 0, following_count := 0, user_credit_rating := 100
    posts_count := 0, last_post_timestamp := 0, daily_post_count := 0
    is_verified := false }

/-! ## Codec lemmas -/

/-- Parsing `k` little-endian bytes back from the encoding of an in-range
value recovers the value and leaves the rest of the buffer. -/
theorem parseLE_toLE (k : Nat) (v : Nat) (r : List Nat) (h : v < 256 ^ k) :
    parseLE k (toLE k v ++ r) = some (v, r) := by
  induction k generalizing v with
  | zero =>
    simp only [pow_zero, Nat.lt_one_iff] at h
    simp [toLE, parseLE, h]
  | succ k ih =>
    have h2 : v / 256 < 256 ^ k := by
      rw [Nat.div_lt_iff_lt_mul (by norm_num)]
      rw [pow_succ] at h
      exact h
    simp [toLE, parseLE, ih (v / 256) h2, Nat.mod_add_div]

/-- `u64` round trip through the codec. -/
theorem parseU64_append (v : Nat) (r : List Nat) (h : U64WF v) :
    parseLE 8 (toLE 8 v ++ r) = some (v, r) :=
  parseLE_toLE 8 v r (by norm_num at h ⊢; exact h)

/-- `bool` round trip through the codec. -/
theorem parseBool_append (b : Bool) (r : List Nat) :
    parseBool (encodeBool b ++ r) = some (b, r) := by
  cases b <;> rfl

/-- `Pubkey` round trip through the codec. -/
theorem parsePubkey_append (pk : Pubkey) (r : List Nat) (h : PkWF pk) :
    parsePubkey (pk ++ r) = some (pk, r) := by
  have h32 : 32 ≤ (pk ++ r).length := by
    simp [List.length_append, h]
  simp only [parsePubkey, if_pos h32]
  rw [← h, List.take_left, List.drop_left]

/-- `String` round trip through the codec. -/
theorem parseStr_append (s : List Nat) (r : List Nat) (h : StrWF s) :
    parseStr (encodeStr s ++ r) = some (s, r) := by
  have hle : s.length < 256 ^ 4 := by norm_num at h ⊢; exact h
  simp only [encodeStr, List.append_assoc, parseStr,
    parseLE_toLE 4 s.length (s ++ r) hle, Option.some_bind]
  simp [List.take_left, List.drop_left]

/-- Parsing `n` strings back from the concatenation of `n` encoded strings
recovers the list. -/
theorem parseStrs_append (xs : List (List Nat)) (r : List Nat)
    (h : ∀ s ∈ xs, StrWF s) :
    parseStrs xs.length ((xs.map encodeStr).flatten ++ r) = some (xs, r) := by
  induction xs with
  | nil => simp [parseStrs]
  | cons x xs ih =>
    have hx : StrWF x := h x (List.mem_cons_self x xs)
    have hxs : ∀ s ∈ xs, StrWF s := fun s hs => h s (List.mem_cons_of_mem x hs)
    simp only [List.map_cons, List.flatten_cons, List.length_cons,
      List.append_assoc, parseStrs, parseStr_append x _ hx, Option.some_bind,
      ih hxs, Option.map_some']

/-- `Vec<String>` round trip through the codec. -/
theorem parseVecStr_append (xs : List (List Nat)) (r : List Nat)
    (h : VecStrWF xs) :
    parseVecStr (encodeVecStr xs ++ r) = some (xs, r) := by
  obtain ⟨hlen, hall⟩ := h
  have hle : xs.length < 256 ^ 4 := by norm_num at hlen ⊢; exact hlen
  simp only [encodeVecStr, List.append_assoc, parseVecStr,
    parseLE_toLE 4 xs.length _ hle, Option.some_bind, parseStrs_append xs r hall]

/-- `i64` round trip through the codec (two's complement). -/
theorem parseI64_append (v : Int) (r : List Nat) (h : I64WF v) :
    parseI64 (encodeI64 v ++ r) = some (v, r) := by
  obtain ⟨h1, h2⟩ := h
  have hmod : v.emod (2 ^ 64) = if 0 ≤ v then v else v + 2 ^ 64 := by
    split_ifs with hv
    · exact Int.emod_eq_of_lt hv (by omega)
    · have h3 : (v + 2 ^ 64) % (2 ^ 64) = v % (2 ^ 64) := Int.add_emod_self
      have h4 : (v + 2 ^ 64) % (2 ^ 64) = v + 2 ^ 64 :=
        Int.emod_eq_of_lt (by omega) (by omega)
      show v % (2 ^ 64) = v + 2 ^ 64
      exact h3.symm.trans h4
  have hlt : (v.emod (2 ^ 64)).toNat < 256 ^ 8 := by
    have : (256 : Nat) ^ 8 = 2 ^ 64 := by norm_num
    rw [this]
    split_ifs at hmod <;> omega
  simp only [encodeI64, parseI64, parseLE_toLE 8 _ r hlt, Option.map_some']
  have : decodeI64n (v.emod (2 ^ 64)).toNat = v := by
    unfold decodeI64n
    split_ifs at hmod ⊢ <;> omega
  rw [this]

/-- `PostRating` round trip through the codec. -/
theorem parseRating_append (t : PostRating) (r : List Nat) :
    parseRating (encodeRating t ++ r) = some (t, r) := by
  cases t <;> rfl

/-- `Profile` round trip through the codec: decoding a buffer whose prefix is
the encoding of a well-formed profile recovers the profile. -/
theorem parseProfile_encode (p : Profile) (r : List Nat) (h : p.WF) :
    parseProfile (encodeProfile p ++ r) = some (p, r) := by
  obtain ⟨hw, h1, h2, h3, h4, h5, h6, h7, h8, h9, h10, h11⟩ := h
  simp only [encodeProfile]
  simp only [List.append_assoc]
  unfold parseProfile
  rw [parseBool_append]
  rw [Option.some_bind]
  rw [parsePubkey_append _ _ hw]
  rw [Option.some_bind]
  rw [parseStr_append _ _ h1]
  rw [Option.some_bind]
  rw [parseStr_append _ _ h2]
  rw [Option.some_bind]
  rw [parseStr_append _ _ h3]
  rw [Option.some_bind]
  rw [parseStr_append _ _ h4]
  rw [Option.some_bind]
  rw [parseU64_append _ _ h5]
  rw [Option.some_bind]
  rw [parseU64_append _ _ h6]
  rw [Option.some_bind]
  rw [parseU64_append _ _ h7]
  rw [Option.some_bind]
  rw [parseI64_append _ _ h8]
  rw [Option.some_bind]
  rw [parseU64_append _ _ h9]
  rw [Option.some_bind]
  rw [parseU64_append _ _ h10]
  rw [Option.some_bind]
  rw [parseU64_append _ _ h11]
  rw [Option.some_bind]
  rw [parseBool_append]
  rw [Option.map_some']

/-- `Post` round trip through the codec. -/
theorem parsePost_encode (p : Post) (r : List Nat) (h : p.WF) :
    parsePost (encodePost p ++ r) = some (p, r) := by
  obtain ⟨h1, hw, h2, h3, h4, h5, h6, h7⟩ := h
  simp only [encodePost]
  simp only [List.append_assoc]
  unfold parsePost
  rw [parseBool_append]
  rw [Option.some_bind]
  rw [parseU64_append _ _ h1]
  rw [Option.some_bind]
  rw [parsePubkey_append _ _ hw]
  rw [Option.some_bind]
  rw [parseStr_append _ _ h2]
  rw [Option.some_bind]
  rw [parseU64_append _ _ h3]
  rw [Option.some_bind]
  rw [parseU64_append _ _ h4]
  rw [Option.some_bind]
  rw [parseU64_append _ _ h5]
  rw [Option.some_bind]
  rw [parseU64_append _ _ h6]
  rw [Option.some_bind]
  rw [parseVecStr_append _ _ h7]
  rw [Option.some_bind]
  rw [parseRating_append]
  rw [Option.some_bind]
  rw [parseBool_append]
  rw [Option.map_some']

/-- `Community` round trip through the codec. -/
theorem parseCommunity_encode (c : Community) (r : List Nat) (h : c.WF) :
    parseCommunity (encodeCommunity c ++ r) = some (c, r) := by
  obtain ⟨h1, h2, h3, h4, hw, h5, h6⟩ := h
  simp only [encodeCommunity]
  simp only [List.append_assoc]
  unfold parseCommunity
  rw [parseBool_append]
  rw [Option.some_bind]
  rw [parseU64_append _ _ h1]
  rw [Option.some_bind]
  rw [parseStr_append _ _ h2]
  rw [Option.some_bind]
  rw [parseStr_append _ _ h3]
  rw [Option.some_bind]
  rw [parseStr_append _ _ h4]
  rw [Option.some_bind]
  rw [parsePubkey_append _ _ hw]
  rw [Option.some_bind]
  rw [parseU64_append _ _ h5]
  rw [Option.some_bind]
  rw [parseVecStr_append _ _ h6]
  rw [Option.some_bind]
  rw [parseBool_append]
  rw [Option.map_some']

/-- Reduction of `Except.bind` on a success value. -/
theorem except_bind_ok {ε α β : Type} (a : α) (f : α → Except ε β) :
    Except.bind (Except.ok a) f = f a := rfl

/-! ## Claim theorems -/

set_option maxHeartbeats 1000000 in
/-- C1: `PostRating::from_likes` returns `None` for `likes < 5`, `Bronze` on
`[5, 20)`, `Silver` on `[20, 50)`, `Gold` on `[50, 150)`, `Platinum` on
`[150, 500)`, `Diamond` on `[500, 1000)`, `Ace` on `[1000, 1000000)`, and
`Conqueror` from `1000000` on (inclusive lower bounds, highest first), and the
tier is monotonically non-decreasing in `likes`. -/
theorem C1_tier_table_and_monotone :
    (∀ l, l < 5 → PostRating.from_likes l = PostRating.none) ∧
    (∀ l, 5 ≤ l → l < 20 → PostRating.from_likes l = PostRating.bronze) ∧
    (∀ l, 20 ≤ l → l < 50 → PostRating.from_likes l = PostRating.silver) ∧
    (∀ l, 50 ≤ l → l < 150 → PostRating.from_likes l = PostRating.gold) ∧
    (∀ l, 150 ≤ l → l < 500 → PostRating.from_likes l = PostRating.platinum) ∧
    (∀ l, 500 ≤ l → l < 1000 → PostRating.from_likes l = PostRating.diamond) ∧
    (∀ l, 1000 ≤ l → l < 1000000 → PostRating.from_likes l = PostRating.ace) ∧
    (∀ l, 1000000 ≤ l → PostRating.from_likes l = PostRating.conqueror) ∧
    (∀ a b, a ≤ b →
      (PostRating.from_likes a).rank ≤ (PostRating.from_likes b).rank) := by
  refine ⟨?_, ?_, ?_, ?_, ?_, ?_, ?_, ?_, ?_⟩
  · intro l h1
    unfold PostRating.from_likes
    split_ifs <;> first | rfl | (exfalso; omega)
  · intro l h1 h2
    unfold PostRating.from_likes
    split_ifs <;> first | rfl | (exfalso; omega)
  · intro l h1 h2
    unfold PostRating.from_likes
    split_ifs <;> first | rfl | (exfalso; omega)
  · intro l h1 h2
    unfold PostRating.from_likes
    split_ifs <;> first | rfl | (exfalso; omega)
  · intro l h1 h2
    unfold PostRating.from_likes
    split_ifs <;> first | rfl | (exfalso; omega)
  · intro l h1 h2
    unfold PostRating.from_likes
    split_ifs <;> first | rfl | (exfalso; omega)
  · intro l h1 h2
    unfold PostRating.from_likes
    split_ifs <;> first | rfl | (exfalso; omega)
  · intro l h1
    unfold PostRating.from_likes
    split_ifs <;> first | rfl | (exfalso; omega)
  · intro a b hab
    unfold PostRating.from_likes
    split_ifs <;> simp only [PostRating.rank] <;> omega

/-- Witness for C1 at concrete inputs: 7 likes is Bronze, and the tier at 10
likes is no higher than the tier at 100 likes. -/
theorem C1_tier_table_and_monotone_witness :
    PostRating.from_likes 7 = PostRating.bronze ∧
    (PostRating.from_likes 10).rank ≤ (PostRating.from_likes 100).rank :=
  ⟨C1_tier_table_and_monotone.2.1 7 (by decide) (by decide),
   C1_tier_table_and_monotone.2.2.2.2.2.2.2.2 10 100 (by decide)⟩

/-- C2: for each entity type, packing a well-formed record whose serialized
form fits the entity's fixed buffer capacity (512 bytes for a profile, 2048
for a post or community) succeeds, and unpacking the resulting buffer
recovers the record exactly. -/
theorem C2_roundtrip :
    (∀ (p : Profile) (dst : List Nat), p.WF → dst.length = 512 →
      (encodeProfile p).length ≤ 512 →
      ∃ out, pack_profile_into_slice p dst = Except.ok out ∧
        unpack_profile_from_slice out = Except.ok p) ∧
    (∀ (p : Post) (dst : List Nat), p.WF → dst.length = 2048 →
      (encodePost p).length ≤ 2048 →
      ∃ out, pack_post_into_slice p dst = Except.ok out ∧
        unpack_post_from_slice out = Except.ok p) ∧
    (∀ (c : Community) (dst : List Nat), c.WF → dst.length = 2048 →
      (encodeCommunity c).length ≤ 2048 →
      ∃ out, pack_community_into_slice c dst = Except.ok out ∧
        unpack_community_from_slice out = Except.ok c) := by
  refine ⟨?_, ?_, ?_⟩
  · intro p dst hwf hdst hfit
    refine ⟨encodeProfile p ++ dst.drop (encodeProfile p).length, ?_, ?_⟩
    · unfold pack_profile_into_slice
      rw [if_neg (by omega)]
    · unfold unpack_profile_from_slice
      rw [parseProfile_encode p _ hwf]
  · intro p dst hwf hdst hfit
    refine ⟨encodePost p ++ dst.drop (encodePost p).length, ?_, ?_⟩
    · unfold pack_post_into_slice
      rw [if_neg (by omega)]
    · unfold unpack_post_from_slice
      rw [parsePost_encode p _ hwf]
  · intro c dst hwf hdst hfit
    refine ⟨encodeCommunity c ++ dst.drop (encodeCommunity c).length, ?_, ?_⟩
    · unfold pack_community_into_slice
      rw [if_neg (by omega)]
    · unfold unpack_community_from_slice
      rw [parseCommunity_encode c _ hwf]

/-- Witness for C2: concrete round trips for an empty-field profile, a
populated profile, a post, and a community, through their fixed buffers. -/
theorem C2_roundtrip_witness :
    (∃ out, pack_profile_into_slice profileEmpty (List.replicate 512 0) = Except.ok out ∧
      unpack_profile_from_slice out = Except.ok profileEmpty) ∧
    (∃ out, pack_profile_into_slice profileFull (List.replicate 512 0) = Except.ok out ∧
      unpack_profile_from_slice out = Except.ok profileFull) ∧
    (∃ out, pack_post_into_slice postSample (List.replicate 2048 0) = Except.ok out ∧
      unpack_post_from_slice out = Except.ok postSample) ∧
    (∃ out, pack_community_into_slice communitySample (List.replicate 2048 0) = Except.ok out ∧
      unpack_community_from_slice out = Except.ok communitySample) :=
  ⟨C2_roundtrip.1 profileEmpty _ (by decide) (by decide) (by decide),
   C2_roundtrip.1 profileFull _ (by decide) (by decide) (by decide),
   C2_roundtrip.2.1 postSample _ (by decide) (by decide) (by decide),
   C2_roundtrip.2.2 communitySample _ (by decide) (by decide) (by decide)⟩

/-- C3: for each entity type, packing a well-formed record whose serialized
byte length exceeds the destination buffer fails with the capacity error
(`ProgramError::InvalidAccountData` in `state.rs`); the length check precedes
the copy, so nothing is written to the destination. -/
theorem C3_pack_capacity_error :
    (∀ (p : Profile) (dst : List Nat), p.WF →
      dst.length < (encodeProfile p).length →
      pack_profile_into_slice p dst =
        Except.error ProgramError.InvalidAccountData) ∧
    (∀ (p : Post) (dst : List Nat), p.WF →
      dst.length < (encodePost p).length →
      pack_post_into_slice p dst =
        Except.error ProgramError.InvalidAccountData) ∧
    (∀ (c : Community) (dst : List Nat), c.WF →
      dst.length < (encodeCommunity c).length →
      pack_community_into_slice c dst =
        Except.error ProgramError.InvalidAccountData) := by
  refine ⟨?_, ?_, ?_⟩
  · intro p dst _ hlt
    unfold pack_profile_into_slice
    rw [if_pos (by omega)]
  · intro p dst _ hlt
    unfold pack_post_into_slice
    rw [if_pos (by omega)]
  · intro c dst _ hlt
    unfold pack_community_into_slice
    rw [if_pos (by omega)]

/-- Witness for C3: concrete records are rejected by the pack functions when
the destination buffer is shorter than their serialized form. -/
theorem C3_pack_capacity_error_witness :
    pack_profile_into_slice profileEmpty (List.replicate 16 0) =
      Except.error ProgramError.InvalidAccountData ∧
    pack_post_into_slice postSample (List.replicate 16 0) =
      Except.error ProgramError.InvalidAccountData ∧
    pack_community_into_slice communitySample (List.replicate 16 0) =
      Except.error ProgramError.InvalidAccountData :=
  ⟨C3_pack_capacity_error.1 profileEmpty _ (by decide) (by decide),
   C3_pack_capacity_error.2.1 postSample _ (by decide) (by decide),
   C3_pack_capacity_error.2.2 communitySample _ (by decide) (by decide)⟩

/-- C4: a successful `FollowProfile` followed by `UnfollowProfile` on the same
accounts succeeds and returns both `followers_count` (followed profile) and
`following_count` (follower profile) to their pre-follow values; and
`UnfollowProfile` on a counter that is already zero leaves it at zero (the
decrement is guarded, so it saturates and cannot underflow). -/
theorem C4_follow_unfollow_inverse :
    (∀ (env : FollowEnv) (pid : Pubkey) (followed follower : Profile)
        (s1 : Profile × Profile),
      process_follow env pid followed follower = Except.ok s1 →
      ∃ s2, process_unfollow env pid s1.1 s1.2 = Except.ok s2 ∧
        s2.1.followers_count = followed.followers_count ∧
        s2.2.following_count = follower.following_count) ∧
    (∀ (env : FollowEnv) (pid : Pubkey) (followed follower : Profile)
        (s2 : Profile × Profile),
      followed.followers_count = 0 →
      process_unfollow env pid followed follower = Except.ok s2 →
      s2.1.followers_count = 0) ∧
    (∀ (env : FollowEnv) (pid : Pubkey) (followed follower : Profile)
        (s2 : Profile × Profile),
      follower.following_count = 0 →
      process_unfollow env pid followed follower = Except.ok s2 →
      s2.2.following_count = 0) := by
  refine ⟨?_, ?_, ?_⟩
  · intro env pid followed follower s1 hok
    unfold process_follow at hok
    split_ifs at hok with h1 h2 h3 h4 h5
    all_goals try exact Except.noConfusion hok
    injection hok with h
    subst h
    unfold process_unfollow
    rw [if_neg h1, if_neg h2, if_neg h3, if_neg h4, if_neg h5]
    exact ⟨_, rfl, by simp, by simp⟩
  · intro env pid followed follower s2 hz hok
    unfold process_unfollow at hok
    split_ifs at hok with h1 h2 h3 h4 h5
    all_goals try exact Except.noConfusion hok
    all_goals (injection hok with h; subst h; simp [hz])
  · intro env pid followed follower s2 hz hok
    unfold process_unfollow at hok
    split_ifs at hok with h1 h2 h3 h4 h5
    all_goals try exact Except.noConfusion hok
    all_goals (injection hok with h; subst h; simp [hz])

/-- Witness for C4: a concrete follow/unfollow pair restores the counters
(6 followers, 3 following), and unfollow at zero counters stays at zero. -/
theorem C4_follow_unfollow_inverse_witness :
    (∃ s2, process_unfollow followEnvW (keyOf 5) followResW.1 followResW.2 =
        Except.ok s2 ∧
      s2.1.followers_count = followedW.followers_count ∧
      s2.2.following_count = followerW.following_count) ∧
    ((followedZ, followerZ) : Profile × Profile).1.followers_count = 0 ∧
    ((followedZ, followerZ) : Profile × Profile).2.following_count = 0 :=
  ⟨C4_follow_unfollow_inverse.1 followEnvW (keyOf 5) followedW followerW
      followResW (by decide),
   C4_follow_unfollow_inverse.2.1 followEnvW (keyOf 5) followedZ followerZ
      (followedZ, followerZ) (by decide) (by decide),
   C4_follow_unfollow_inverse.2.2 followEnvW (keyOf 5) followedZ followerZ
      (followedZ, followerZ) (by decide) (by decide)⟩

/-- C5: a successful `LikePost` increments the post's `likes` by exactly 1,
sets `rating` to `from_likes` of the new count, sets `in_kill_zone` to the
(always false) unsigned comparison `likes < 0`, and increments the author's
credit rating by exactly 1; a post-id mismatch or an author-profile linkage
mismatch fails with `InvalidArgument` (an error leaves every record
unchanged); five likes from zero yield `Bronze` and raise the author's credit
rating from 100 to 105. -/
theorem C5_like_post_effects :
    (∀ (env : LikeEnv) (post_id : Nat) (post : Post) (profile : Profile)
        (s : Post × Profile),
      process_like_post env post_id post profile = Except.ok s →
      s.1.likes = post.likes + 1 ∧
      s.1.rating = PostRating.from_likes (post.likes + 1) ∧
      s.1.in_kill_zone = decide (post.likes + 1 < 0) ∧
      s.2.user_credit_rating = profile.user_credit_rating + 1) ∧
    (∀ (env : LikeEnv) (post_id : Nat) (post : Post) (profile : Profile),
      env.user_is_signer = true →
      env.post_acc_owner = env.program_id →
      env.author_profile_acc_owner = env.program_id →
      post.id ≠ post_id →
      process_like_post env post_id post profile =
        Except.error ProgramError.InvalidArgument) ∧
    (∀ (env : LikeEnv) (post_id : Nat) (post : Post) (profile : Profile),
      env.user_is_signer = true →
      env.post_acc_owner = env.program_id →
      env.author_profile_acc_owner = env.program_id →
      post.id = post_id →
      profile.owner ≠ post.author →
      process_like_post env post_id post profile =
        Except.error ProgramError.InvalidArgument) ∧
    (∀ (env : LikeEnv) (post_id : Nat) (post : Post) (profile : Profile),
      env.user_is_signer = true →
      env.post_acc_owner = env.program_id →
      env.author_profile_acc_owner = env.program_id →
      post.id = post_id →
      profile.owner = post.author →
      post.likes = 0 →
      profile.user_credit_rating = 100 →
      ∃ s, likeIter env post_id 5 (post, profile) = Except.ok s ∧
        s.1.likes = 5 ∧ s.1.rating = PostRating.bronze ∧
        s.2.user_credit_rating = 105) := by
  refine ⟨?_, ?_, ?_, ?_⟩
  · intro env post_id post profile s hok
    unfold process_like_post at hok
    split_ifs at hok with h1 h2 h3 h4 h5
    all_goals try exact Except.noConfusion hok
    injection hok with h
    subst h
    exact ⟨rfl, rfl, rfl, rfl⟩
  · intro env post_id post profile h1 h2 h3 h4
    unfold process_like_post
    rw [if_neg (by simp [h1]), if_neg (by simp [h2]), if_neg (by simp [h3]),
      if_pos h4]
  · intro env post_id post profile h1 h2 h3 h4 h5
    unfold process_like_post
    rw [if_neg (by simp [h1]), if_neg (by simp [h2]), if_neg (by simp [h3]),
      if_neg (by simp [h4]), if_pos h5]
  · intro env post_id post profile h1 h2 h3 h4 h5 h6 h7
    have e : likeIter env post_id 5 (post, profile) =
        Except.ok
          ({ post with
              likes := 5,
              rating := PostRating.bronze,
              in_kill_zone := false },
           { profile with user_credit_rating := 105 }) := by
      simp [likeIter, process_like_post, except_bind_ok, h1, h2, h3, h4, h5,
        h6, h7, PostRating.from_likes]
    exact ⟨_, e, rfl, rfl, rfl⟩

/-- Witness for C5: concrete like effects, a concrete id mismatch, a concrete
author mismatch, and the concrete five-like scenario. -/
theorem C5_like_post_effects_witness :
    (likeResW.1.likes = postW.likes + 1 ∧
     likeResW.1.rating = PostRating.from_likes (postW.likes + 1) ∧
     likeResW.1.in_kill_zone = decide (postW.likes + 1 < 0) ∧
     likeResW.2.user_credit_rating = authorW.user_credit_rating + 1) ∧
    process_like_post likeEnvW 8 postW authorW =
      Except.error ProgramError.InvalidArgument ∧
    process_like_post likeEnvW 7 postW wrongAuthorW =
      Except.error ProgramError.InvalidArgument ∧
    (∃ s, likeIter likeEnvW 7 5 (postW, authorW) = Except.ok s ∧
      s.1.likes = 5 ∧ s.1.rating = PostRating.bronze ∧
      s.2.user_credit_rating = 105) :=
  ⟨C5_like_post_effects.1 likeEnvW 7 postW authorW likeResW (by decide),
   C5_like_post_effects.2.1 likeEnvW 8 postW authorW (by decide) (by decide)
     (by decide) (by decide),
   C5_like_post_effects.2.2.1 likeEnvW 7 postW wrongAuthorW (by decide)
     (by decide) (by decide) (by decide) (by decide),
   C5_like_post_effects.2.2.2 likeEnvW 7 postW authorW (by decide) (by decide)
     (by decide) (by decide) (by decide) (by decide) (by decide)⟩

/-- C6: a successful `CreatePost` resets `daily_post_count` to 0 first when
more than 86400 seconds have passed since `last_post_timestamp`, then
increments `posts_count` and `daily_post_count` by exactly 1, sets
`last_post_timestamp` to the clock value, and writes a post with
`id = posts_count`, zero likes/comments/mirrors and rating `None`; two posts
on the same day from a fresh profile give `daily_post_count = 2`,
`posts_count = 2`, and second post id 2. -/
theorem C6_create_post_effects :
    (∀ (env : CreatePostEnv) (content : List Nat) (images : List (List Nat))
        (profile : Profile) (s : Profile × Post),
      process_create_post env content images profile = Except.ok s →
      s.1.posts_count = profile.posts_count + 1 ∧
      s.1.daily_post_count =
        (if env.now - profile.last_post_timestamp > 86400 then 0
         else profile.daily_post_count) + 1 ∧
      s.1.last_post_timestamp = env.now ∧
      s.2.id = s.1.posts_count ∧ s.2.likes = 0 ∧ s.2.comments = 0 ∧
      s.2.mirrors = 0 ∧ s.2.rating = PostRating.none) ∧
    (∀ (env1 env2 : CreatePostEnv) (c1 c2 : List Nat)
        (i1 i2 : List (List Nat)) (profile : Profile),
      env1.user_is_signer = true →
      env1.profile_acc_owner = env1.program_id →
      profile.owner = env1.user_key →
      env2.user_is_signer = true →
      env2.profile_acc_owner = env2.program_id →
      profile.owner = env2.user_key →
      profile.posts_count = 0 →
      profile.daily_post_count = 0 →
      env2.now - env1.now ≤ 86400 →
      ∃ s1 s2, process_create_post env1 c1 i1 profile = Except.ok s1 ∧
        process_create_post env2 c2 i2 s1.1 = Except.ok s2 ∧
        s2.1.daily_post_count = 2 ∧ s2.1.posts_count = 2 ∧ s2.2.id = 2) := by
  refine ⟨?_, ?_⟩
  · intro env content images profile s hok
    unfold process_create_post at hok
    split_ifs at hok with h1 h2 h3 hday
    all_goals try exact Except.noConfusion hok
    all_goals injection hok with h
    all_goals subst h
    all_goals exact ⟨rfl, by simp [hday], rfl, rfl, rfl, rfl, rfl, rfl⟩
  · intro env1 env2 c1 c2 i1 i2 profile h1 h2 h3 h4 h5 h6 h7 h8 h9
    have e1 : process_create_post env1 c1 i1 profile =
        Except.ok
          ({ profile with
              posts_count := 1,
              daily_post_count := 1,
              last_post_timestamp := env1.now },
           { is_initialized := true, id := 1, author := env1.user_key,
             content := c1, timestamp := env1.now, likes := 0, comments := 0,
             mirrors := 0, images := i1, rating := PostRating.none,
             in_kill_zone := false }) := by
      unfold process_create_post
      rw [if_neg (by simp [h1]), if_neg (by simp [h2]), if_neg (by simp [h3])]
      by_cases hday : env1.now - profile.last_post_timestamp > 86400
      · simp [hday, h7, h8]
      · simp [hday, h7, h8]
    have e2 : process_create_post env2 c2 i2
        ({ profile with
            posts_count := 1,
            daily_post_count := 1,
            last_post_timestamp := env1.now }) =
        Except.ok
          ({ profile with
              posts_count := 2,
              daily_post_count := 2,
              last_post_timestamp := env2.now },
           { is_initialized := true, id := 2, author := env2.user_key,
             content := c2, timestamp := env2.now, likes := 0, comments := 0,
             mirrors := 0, images := i2, rating := PostRating.none,
             in_kill_zone := false }) := by
      unfold process_create_post
      rw [if_neg (by simp [h4]), if_neg (by simp [h5]), if_neg (by simp [h6])]
      have hnd : ¬(env2.now - env1.now > 86400) := by omega
      simp [hnd, h7, h8]
    exact ⟨_, _, e1, e2, rfl, rfl, rfl⟩

/-- Witness for C6: concrete first-post effects and the concrete two-posts
same-day scenario on a fresh profile. -/
theorem C6_create_post_effects_witness :
    (createRes1.1.posts_count = profileEmpty.posts_count + 1 ∧
     createRes1.1.daily_post_count =
       (if createPostEnv1.now - profileEmpty.last_post_timestamp > 86400 then 0
        else profileEmpty.daily_post_count) + 1 ∧
     createRes1.1.last_post_timestamp = createPostEnv1.now ∧
     createRes1.2.id = createRes1.1.posts_count ∧ createRes1.2.likes = 0 ∧
     createRes1.2.comments = 0 ∧ createRes1.2.mirrors = 0 ∧
     createRes1.2.rating = PostRating.none) ∧
    (∃ s1 s2, process_create_post createPostEnv1 [104] [] profileEmpty =
        Except.ok s1 ∧
      process_create_post createPostEnv2 [105] [] s1.1 = Except.ok s2 ∧
      s2.1.daily_post_count = 2 ∧ s2.1.posts_count = 2 ∧ s2.2.id = 2) :=
  ⟨C6_create_post_effects.1 createPostEnv1 [104] [] profileEmpty createRes1
      (by decide),
   C6_create_post_effects.2 createPostEnv1 createPostEnv2 [104] [105] [] []
      profileEmpty (by decide) (by decide) (by decide) (by decide) (by decide)
      (by decide) (by decide) (by decide) (by decide)⟩

/-- C7: `CreateProfile` fails with `MissingRequiredSignature` when the caller
is not a signer; fails with `InvalidArgument` when (with a signer and the
correct system program) the supplied profile account differs from the derived
PDA; and on success writes an initialized profile owned by the caller with
credit rating 100 and all four counters zero. -/
theorem C7_create_profile_checks :
    (∀ (env : CreateProfileEnv) (u b pi ci : List Nat),
      env.user_is_signer = false →
      process_create_profile env u b pi ci =
        Except.error ProgramError.MissingRequiredSignature) ∧
    (∀ (env : CreateProfileEnv) (u b pi ci : List Nat),
      env.user_is_signer = true →
      env.system_program_key = systemProgramId →
      env.find_pda env.user_key u ≠ env.profile_key →
      process_create_profile env u b pi ci =
        Except.error ProgramError.InvalidArgument) ∧
    (∀ (env : CreateProfileEnv) (u b pi ci : List Nat) (p : Profile),
      process_create_profile env u b pi ci = Except.ok p →
      p.is_initialized = true ∧ p.owner = env.user_key ∧
      p.user_credit_rating = 100 ∧ p.followers_count = 0 ∧
      p.following_count = 0 ∧ p.posts_count = 0 ∧ p.daily_post_count = 0) := by
  refine ⟨?_, ?_, ?_⟩
  · intro env u b pi ci h1
    unfold process_create_profile
    rw [if_pos (by simp [h1])]
  · intro env u b pi ci h1 h2 h3
    unfold process_create_profile
    rw [if_neg (by simp [h1]), if_neg (by simp [h2]), if_pos h3]
  · intro env u b pi ci p hok
    unfold process_create_profile at hok
    split_ifs at hok with h1 h2 h3
    all_goals try exact Except.noConfusion hok
    injection hok with h
    subst h
    exact ⟨rfl, rfl, rfl, rfl, rfl, rfl, rfl⟩

/-- Witness for C7: the concrete environment fails without a signer, fails on
a PDA mismatch, and succeeds with the expected stored profile. -/
theorem C7_create_profile_checks_witness :
    process_create_profile { createProfileEnvW with user_is_signer := false }
      [97] [98] [] [] = Except.error ProgramError.MissingRequiredSignature ∧
    process_create_profile { createProfileEnvW with profile_key := keyOf 8 }
      [97] [98] [] [] = Except.error ProgramError.InvalidArgument ∧
    (profResW.is_initialized = true ∧ profResW.owner = createProfileEnvW.user_key ∧
     profResW.user_credit_rating = 100 ∧ profResW.followers_count = 0 ∧
     profResW.following_count = 0 ∧ profResW.posts_count = 0 ∧
     profResW.daily_post_count = 0) :=
  ⟨C7_create_profile_checks.1 _ [97] [98] [] [] rfl,
   C7_create_profile_checks.2.1 _ [97] [98] [] [] rfl rfl (by decide),
   C7_create_profile_checks.2.2 createProfileEnvW [97] [98] [] [] profResW
     (by decide)⟩

/-! ## Zero-buffer parsing lemmas (claim C8) -/

/-- Parsing `k` little-endian bytes from an all-zero buffer yields 0. -/
theorem parseLE_replicate (k n m : Nat) (h : k + m = n) :
    parseLE k (List.replicate n 0) = some (0, List.replicate m 0) := by
  induction k generalizing n m with
  | zero =>
    have hm : m = n := by omega
    subst hm
    simp [parseLE]
  | succ k ih =>
    cases n with
    | zero => omega
    | succ n =>
      rw [List.replicate_succ]
      simp only [parseLE]
      rw [ih n m (by omega)]
      simp

/-- Parsing a `bool` from an all-zero buffer yields `false`. -/
theorem parseBool_replicate (n m : Nat) (h : 1 + m = n) :
    parseBool (List.replicate n 0) = some (false, List.replicate m 0) := by
  cases n with
  | zero => omega
  | succ n =>
    have hm : m = n := by omega
    subst hm
    rw [List.replicate_succ]
    simp [parseBool]

/-- Parsing a `Pubkey` from an all-zero buffer yields the zero key. -/
theorem parsePubkey_replicate (n m : Nat) (h : 32 + m = n) :
    parsePubkey (List.replicate n 0) =
      some (List.replicate 32 0, List.replicate m 0) := by
  subst h
  simp [parsePubkey, List.take_replicate, List.drop_replicate,
    Nat.min_eq_left (Nat.le_add_right 32 m)]

/-- Parsing a `String` from an all-zero buffer yields the empty string. -/
theorem parseStr_replicate (n m : Nat) (h : 4 + m = n) :
    parseStr (List.replicate n 0) = some ([], List.replicate m 0) := by
  unfold parseStr
  rw [parseLE_replicate 4 n m h]
  simp

/-- Parsing an `i64` from an all-zero buffer yields 0. -/
theorem parseI64_replicate (n m : Nat) (h : 8 + m = n) :
    parseI64 (List.replicate n 0) = some (0, List.replicate m 0) := by
  unfold parseI64
  rw [parseLE_replicate 8 n m h]
  simp [decodeI64n]

/-- Parsing a `Vec<String>` from an all-zero buffer yields the empty list. -/
theorem parseVecStr_replicate (n m : Nat) (h : 4 + m = n) :
    parseVecStr (List.replicate n 0) = some ([], List.replicate m 0) := by
  unfold parseVecStr
  rw [parseLE_replicate 4 n m h]
  simp [parseStrs]

/-- Parsing a `PostRating` from an all-zero buffer yields variant `None`. -/
theorem parseRating_replicate (n m : Nat) (h : 1 + m = n) :
    parseRating (List.replicate n 0) =
      some (PostRating.none, List.replicate m 0) := by
  cases n with
  | zero => omega
  | succ n =>
    have hm : m = n := by omega
    subst hm
    rw [List.replicate_succ]
    simp [parseRating]

/-- C8: decoding an all-zero buffer of the entity's allocated capacity (512
bytes for a profile, 2048 for a post or community) succeeds and yields a
record whose `is_initialized` flag is `false`. -/
theorem C8_zero_buffer_decode :
    (unpack_profile_from_slice (List.replicate 512 0) = Except.ok zeroProfile ∧
     zeroProfile.is_initialized = false) ∧
    (unpack_post_from_slice (List.replicate 2048 0) = Except.ok zeroPost ∧
     zeroPost.is_initialized = false) ∧
    (unpack_community_from_slice (List.replicate 2048 0) =
       Except.ok zeroCommunity ∧
     zeroCommunity.is_initialized = false) := by
  refine ⟨⟨?_, rfl⟩, ⟨?_, rfl⟩, ⟨?_, rfl⟩⟩
  · have hr : parseProfile (List.replicate 512 0) =
        some (zeroProfile, List.replicate 406 0) := by
      unfold parseProfile
      rw [parseBool_replicate 512 511 (by norm_num), Option.some_bind,
        parsePubkey_replicate 511 479 (by norm_num), Option.some_bind,
        parseStr_replicate 479 475 (by norm_num), Option.some_bind,
        parseStr_replicate 475 471 (by norm_num), Option.some_bind,
        parseStr_replicate 471 467 (by norm_num), Option.some_bind,
        parseStr_replicate 467 463 (by norm_num), Option.some_bind,
        parseLE_replicate 8 463 455 (by norm_num), Option.some_bind,
        parseLE_replicate 8 455 447 (by norm_num), Option.some_bind,
        parseLE_replicate 8 447 439 (by norm_num), Option.some_bind,
        parseI64_replicate 439 431 (by norm_num), Option.some_bind,
        parseLE_replicate 8 431 423 (by norm_num), Option.some_bind,
        parseLE_replicate 8 423 415 (by norm_num), Option.some_bind,
        parseLE_replicate 8 415 407 (by norm_num), Option.some_bind,
        parseBool_replicate 407 406 (by norm_num), Option.map_some']
      rfl
    unfold unpack_profile_from_slice
    rw [hr]
  · have hr : parsePost (List.replicate 2048 0) =
        some (zeroPost, List.replicate 1965 0) := by
      unfold parsePost
      rw [parseBool_replicate 2048 2047 (by norm_num), Option.some_bind,
        parseLE_replicate 8 2047 2039 (by norm_num), Option.some_bind,
        parsePubkey_replicate 2039 2007 (by norm_num), Option.some_bind,
        parseStr_replicate 2007 2003 (by norm_num), Option.some_bind,
        parseLE_replicate 8 2003 1995 (by norm_num), Option.some_bind,
        parseLE_replicate 8 1995 1987 (by norm_num), Option.some_bind,
        parseLE_replicate 8 1987 1979 (by norm_num), Option.some_bind,
        parseLE_replicate 8 1979 1971 (by norm_num), Option.some_bind,
        parseVecStr_replicate 1971 1967 (by norm_num), Option.some_bind,
        parseRating_replicate 1967 1966 (by norm_num), Option.some_bind,
        parseBool_replicate 1966 1965 (by norm_num), Option.map_some']
      rfl
    unfold unpack_post_from_slice
    rw [hr]
  · have hr : parseCommunity (List.replicate 2048 0) =
        some (zeroCommunity, List.replicate 1982 0) := by
      unfold parseCommunity
      rw [parseBool_replicate 2048 2047 (by norm_num), Option.some_bind,
        parseLE_replicate 8 2047 2039 (by norm_num), Option.some_bind,
        parseStr_replicate 2039 2035 (by norm_num), Option.some_bind,
        parseStr_replicate 2035 2031 (by norm_num), Option.some_bind,
        parseStr_replicate 2031 2027 (by norm_num), Option.some_bind,
        parsePubkey_replicate 2027 1995 (by norm_num), Option.some_bind,
        parseLE_replicate 8 1995 1987 (by norm_num), Option.some_bind,
        parseVecStr_replicate 1987 1983 (by norm_num), Option.some_bind,
        parseBool_replicate 1983 1982 (by norm_num), Option.map_some']
      rfl
    unfold unpack_community_from_slice
    rw [hr]

/-- C9 counterexample: the claim says every invocation whose supplied
community id does not match the resolved community record fails with
`InvalidArgument` and leaves the record unchanged; on the code, the
`JoinCommunity` dispatch drops the decoded `community_id: u64` and instead
passes the first account's key (the user's wallet), so in the concrete
invocation `joinEnvAlias` — where the same program-owned signing account is
supplied as both wallet and community — a supplied id 999 that differs from
the stored `commC.id = 0` nevertheless succeeds and increments
`member_count` from 5 to 6. -/
theorem C9_counterexample_id_ignored :
    commC.id ≠ 999 ∧
    join_community_dispatch joinEnvAlias 999 commC ≠
      Except.error ProgramError.InvalidArgument ∧
    join_community_dispatch joinEnvAlias 999 commC =
      Except.ok { commC with member_count := 6 } := by
  refine ⟨by decide, by decide, by decide⟩

/-- C9 (amended): a successful `JoinCommunity` increments `member_count` by
exactly 1; but the supplied `community_id: u64` of the instruction is ignored
by the dispatch, which passes the first account's key — the user's wallet —
as the id, so the result never depends on the supplied id; with a signer and
a program-owned community account, the command fails with `InvalidArgument`
whenever the community account's key differs from the caller's wallet key
(regardless of the supplied id), and succeeds, incrementing `member_count`,
when the two keys coincide. -/
theorem C9_join_amended :
    (∀ (env : JoinEnv) (a b : Nat) (community : Community),
      join_community_dispatch env a community =
        join_community_dispatch env b community) ∧
    (∀ (env : JoinEnv) (a : Nat) (community c : Community),
      join_community_dispatch env a community = Except.ok c →
      c.member_count = community.member_count + 1) ∧
    (∀ (env : JoinEnv) (a : Nat) (community : Community),
      env.user_is_signer = true →
      env.community_acc_owner = env.program_id →
      env.community_key ≠ env.user_key →
      join_community_dispatch env a community =
        Except.error ProgramError.InvalidArgument) ∧
    (∀ (env : JoinEnv) (a : Nat) (community : Community),
      env.user_is_signer = true →
      env.community_acc_owner = env.program_id →
      env.community_key = env.user_key →
      join_community_dispatch env a community =
        Except.ok { community with
          member_count := community.member_count + 1 }) := by
  refine ⟨fun _ _ _ _ => rfl, ?_, ?_, ?_⟩
  · intro env a community c hok
    unfold join_community_dispatch process_join_community at hok
    split_ifs at hok with h1 h2 h3
    all_goals try exact Except.noConfusion hok
    injection hok with h
    subst h
    rfl
  · intro env a community h1 h2 h3
    unfold join_community_dispatch process_join_community
    rw [if_neg (by simp [h1]), if_neg (by simp [h2]), if_pos h3]
  · intro env a community h1 h2 h3
    unfold join_community_dispatch process_join_community
    rw [if_neg (by simp [h1]), if_neg (by simp [h2]), if_neg (by simp [h3])]

/-- Witness for C9 (amended) at concrete inputs: two different supplied ids
give the same result, a successful join takes the member count from 5 to 6,
an ordinary invocation with distinct wallet and community accounts fails with
`InvalidArgument`, and the aliased invocation succeeds. -/
theorem C9_join_amended_witness :
    join_community_dispatch joinEnvC 1 commC =
      join_community_dispatch joinEnvC 2 commC ∧
    ({ commC with member_count := 6 } : Community).member_count =
      commC.member_count + 1 ∧
    join_community_dispatch joinEnvC 3 commC =
      Except.error ProgramError.InvalidArgument ∧
    join_community_dispatch joinEnvAlias 5 commC =
      Except.ok { commC with member_count := commC.member_count + 1 } :=
  ⟨C9_join_amended.1 joinEnvC 1 2 commC,
   C9_join_amended.2.1 joinEnvAlias 1 commC { commC with member_count := 6 }
     (by decide),
   C9_join_amended.2.2.1 joinEnvC 3 commC rfl rfl (by decide),
   C9_join_amended.2.2.2 joinEnvAlias 5 commC rfl rfl rfl⟩

/-! ## UTF-8 truncation lemmas (claim C10) -/

/-- A list of all-1 byte widths (an ASCII string) sums to its length. -/
theorem sum_ones (s : List Nat) (h : ∀ c ∈ s, c = 1) : s.sum = s.length := by
  induction s with
  | nil => rfl
  | cons c rest ih =>
    have hc : c = 1 := h c (List.mem_cons_self c rest)
    have hr := ih (fun x hx => h x (List.mem_cons_of_mem c hx))
    simp only [List.sum_cons, List.length_cons, hc, hr]
    omega

/-- A successful `sliceBytes n` returns a character prefix of byte length
exactly `n`. -/
theorem sliceBytes_spec (s : List Nat) (n : Nat) (t : List Nat)
    (h : sliceBytes n s = some t) : utf8Len t = n ∧ ∃ u, s = t ++ u := by
  induction s generalizing n t with
  | nil =>
    cases n with
    | zero =>
      simp [sliceBytes] at h
      subst h
      exact ⟨rfl, [], rfl⟩
    | succ n => simp [sliceBytes] at h
  | cons c rest ih =>
    cases n with
    | zero =>
      simp [sliceBytes] at h
      subst h
      exact ⟨rfl, c :: rest, rfl⟩
    | succ n =>
      unfold sliceBytes at h
      split_ifs at h with hc
      cases ht : sliceBytes (n + 1 - c) rest with
      | none =>
        rw [ht] at h
        simp at h
      | some t2 =>
        rw [ht] at h
        simp only [Option.map_some'] at h
        injection h with h2
        subst h2
        obtain ⟨hsum, u, hu⟩ := ih (n + 1 - c) t2 ht
        refine ⟨?_, u, ?_⟩
        · simp only [utf8Len, List.sum_cons] at hsum ⊢
          omega
        · simp [hu]

/-- On an all-ASCII string, `sliceBytes k` succeeds whenever `k` is within
the byte length, returning the first `k` characters. -/
theorem sliceBytes_ones (k : Nat) (s : List Nat) (h1 : ∀ c ∈ s, c = 1)
    (h2 : k ≤ s.length) : sliceBytes k s = some (s.take k) := by
  induction k generalizing s with
  | zero => simp [sliceBytes]
  | succ k ih =>
    cases s with
    | nil => simp at h2
    | cons c rest =>
      have hc : c = 1 := h1 c (List.mem_cons_self c rest)
      subst hc
      unfold sliceBytes
      rw [if_pos (by omega)]
      have hr := ih rest (fun x hx => h1 x (List.mem_cons_of_mem _ hx))
        (by simpa using h2)
      simp only [Nat.add_sub_cancel]
      rw [hr]
      simp [List.take_succ_cons]

/-- C10: in `process_create_profile`, a string field longer than 128 bytes is
truncated by the byte slice `s[0..128]` (a character prefix of exactly 128
bytes); the slice panics when byte index 128 falls inside a multi-byte UTF-8
character, witnessed by a concrete string, so the truncation step is total
only when each field is at most 128 bytes or has a character boundary at byte
128 — in particular it is total on ASCII-only strings. -/
theorem C10_truncation_char_boundary :
    (∀ s t, utf8Len s > 128 → truncStep s = some t →
      utf8Len t = 128 ∧ ∃ u, s = t ++ u) ∧
    (∃ s, utf8Len s > 128 ∧ truncStep s = Option.none) ∧
    (∀ s, utf8Len s ≤ 128 → truncStep s = some s) ∧
    (∀ s, utf8Len s > 128 → sliceBytes 128 s = Option.none →
      truncStep s = Option.none) ∧
    (∀ s, (∀ c ∈ s, c = 1) → (truncStep s).isSome = true) := by
  refine ⟨?_, ?_, ?_, ?_, ?_⟩
  · intro s t hlen ht
    unfold truncStep at ht
    rw [if_pos hlen] at ht
    exact sliceBytes_spec s 128 t ht
  · exact ⟨List.replicate 127 1 ++ [2], by decide, by decide⟩
  · intro s hlen
    unfold truncStep
    rw [if_neg (by omega)]
  · intro s hlen hnone
    unfold truncStep
    rw [if_pos hlen, hnone]
  · intro s hall
    unfold truncStep
    split_ifs with hlen
    · have hs : s.sum = s.length := sum_ones s hall
      have hb : 128 ≤ s.length := by
        simp only [utf8Len] at hlen
        omega
      rw [sliceBytes_ones 128 s hall hb]
      rfl
    · rfl

/-- Witness for C10 at concrete inputs: slicing a 129-byte ASCII string keeps
exactly 128 bytes of a prefix, a short string is untouched, and the
truncation step is total on a concrete ASCII string. -/
theorem C10_truncation_char_boundary_witness :
    (utf8Len (List.replicate 128 1) = 128 ∧
     ∃ u, List.replicate 129 1 = List.replicate 128 1 ++ u) ∧
    truncStep [1, 1] = some [1, 1] ∧
    (truncStep (List.replicate 200 1)).isSome = true :=
  ⟨C10_truncation_char_boundary.1 (List.replicate 129 1)
     (List.replicate 128 1) (by decide) (by decide),
   C10_truncation_char_boundary.2.2.1 [1, 1] (by decide),
   C10_truncation_char_boundary.2.2.2.2 (List.replicate 200 1) (by decide)⟩

end BLKS
